import Mathlib

/-!
Verification development for the roguelike core: a shallow embedding of
src/procgen.py, src/actions.py, src/engine.py, src/components/fighter.py,
src/render_functions.py and src/tile_types.py, with theorems checking the
specification claims against the embedded code.

Conventions: Python ints are Lean `Int` (Python `//` is floor division,
embedded as `Int.fdiv`); `random.randint(a, b)` raises when `b < a`, so it
is embedded as an `Option`-valued function driven by an explicit stream of
nondeterministic choices; code that can raise is `Option`-valued.
-/

/-- Tile kinds from src/tile_types.py.  The module defines `floor`
(walkable, transparent) and `wall` (neither).  The `down_stairs` tile is
referenced by src/procgen.py but its definition is not under src/.
Modelled from the spec: the descent point is a walkable down-stairs tile
written over the grid ("write a down-stairs tile at the recorded final
center"). -/
inductive Tile where
  | wall : Tile
  | floor : Tile
  | downStairs : Tile
deriving DecidableEq, Repr

/-- The walkable flag of each tile definition (src/tile_types.py:
floor has walkable=True, wall has walkable=False; down stairs must be
walkable to serve as a descent point). -/
def Tile.walkable : Tile → Bool
  | .wall => false
  | .floor => true
  | .downStairs => true

/-- The transparent flag of each tile definition (src/tile_types.py). -/
def Tile.transparent : Tile → Bool
  | .wall => false
  | .floor => true
  | .downStairs => true

/-- RectangularRoom from src/procgen.py: constructor stores
x1 = x, y1 = y, x2 = x + width, y2 = y + height. -/
structure RectangularRoom where
  x1 : Int
  y1 : Int
  x2 : Int
  y2 : Int
deriving DecidableEq, Repr

/-- The RectangularRoom constructor (src/procgen.py lines 38-42). -/
def RectangularRoom.make (x y width height : Int) : RectangularRoom :=
  ⟨x, y, x + width, y + height⟩

/-- The center property (src/procgen.py lines 44-55): floor division of
the coordinate sums, as Python `//`. -/
def RectangularRoom.center (r : RectangularRoom) : Int × Int :=
  (Int.fdiv (r.x1 + r.x2) 2, Int.fdiv (r.y1 + r.y2) 2)

/-- Membership in the inner region of a room (src/procgen.py lines 57-68):
the numpy slices `slice(x1+1, x2), slice(y1+1, y2)`, i.e. the cells with
x1+1 <= i < x2 and y1+1 <= j < y2. -/
def RectangularRoom.innerContains (r : RectangularRoom) (p : Int × Int) : Prop :=
  r.x1 + 1 ≤ p.1 ∧ p.1 < r.x2 ∧ r.y1 + 1 ≤ p.2 ∧ p.2 < r.y2

instance (r : RectangularRoom) (p : Int × Int) : Decidable (r.innerContains p) := by
  unfold RectangularRoom.innerContains; infer_instance

/-- The intersects test (src/procgen.py lines 70-81): overlap of the closed
bounding boxes on both axes. -/
def RectangularRoom.intersects (a b : RectangularRoom) : Bool :=
  decide (a.x1 ≤ b.x2) && decide (a.x2 ≥ b.x1) &&
  decide (a.y1 ≤ b.y2) && decide (a.y2 ≥ b.y1)

/-- Python random.randint(a, b): a uniform draw from the inclusive range
[a, b]; raises ValueError when b < a.  The draw is driven by an arbitrary
stream value `r`, reduced into the range, so quantifying over all `r`
quantifies over every possible random outcome. -/
def randint (a b : Int) (r : Nat) : Option Int :=
  if a ≤ b then some (a + (r : Int) % (b - a + 1)) else none

/-- Carve the inner region of a room to floor
(`dungeon.tiles[new_room.inner] = tile_types.floor`, src/procgen.py line 194). -/
def carveInner (t : Int → Int → Tile) (room : RectangularRoom) : Int → Int → Tile :=
  fun i j => if room.innerContains (i, j) then Tile.floor else t i j

/-- Assignment of a single grid cell (`dungeon.tiles[x, y] = ...`). -/
def setTile (t : Int → Int → Tile) (p : Int × Int) (v : Tile) : Int → Int → Tile :=
  fun i j => if i = p.1 ∧ j = p.2 then v else t i j

/-- Carve every cell of a list to floor, in order (the corridor loop
`for x, y in tunnel_between(...): dungeon.tiles[x, y] = tile_types.floor`). -/
def carveCells (t : Int → Int → Tile) (cells : List (Int × Int)) : Int → Int → Tile :=
  cells.foldl (fun acc c => setTile acc c Tile.floor) t

/-- tcod.los.bresenham restricted to the axis-aligned segments produced by
tunnel_between (each leg of the L shares either its x or its y between the
endpoints): the inclusive straight line of cells from `p` to `q`. -/
def bresenhamLine (p q : Int × Int) : List (Int × Int) :=
  if p.1 = q.1 then
    (List.range ((q.2 - p.2).natAbs + 1)).map
      (fun i => (p.1, p.2 + (if p.2 ≤ q.2 then (i : Int) else -(i : Int))))
  else
    (List.range ((q.1 - p.1).natAbs + 1)).map
      (fun i => (p.1 + (if p.1 ≤ q.1 then (i : Int) else -(i : Int)), p.2))

/-- tunnel_between (src/procgen.py lines 132-158): a fair coin picks the
bend corner `(x2, y1)` (move horizontally first, the `random.random() < 0.5`
branch, here `coin = true`) or `(x1, y2)` (vertically first); the corridor
is the two Bresenham legs concatenated, the corner cell on both. -/
def tunnelBetween (coin : Bool) (start finish : Int × Int) : List (Int × Int) :=
  let corner : Int × Int :=
    if coin then (finish.1, start.2) else (start.1, finish.2)
  bresenhamLine start corner ++ bresenhamLine corner finish

/-- One attempt of the generation loop consumes four randint draws (room
width, room height, x, y) and, when a corridor is carved, one coin.
Quantifying over streams of Attempt values covers every random stream of
the Python program (the Python loop draws lazily, e.g. no coin on a
rejected attempt, and place_entities consumes further draws; those draws
affect no field this model tracks, so eager per-attempt records reach
exactly the same set of outcomes). -/
structure Attempt where
  rw : Nat
  rh : Nat
  rx : Nat
  ry : Nat
  coin : Bool

/-- The map state threaded through generate_dungeon: the tile grid (all
wall initially, as GameMap fills tiles with wall), the accepted rooms in
order, the player position, and the two variables center_of_last_room
(initialised to (0, 0) at src/procgen.py line 177) and downstairs_location.
Entities spawned by place_entities are not tracked: they never modify
tiles, rooms or positions. -/
structure GenState where
  tiles : Int → Int → Tile
  rooms : List RectangularRoom
  playerPos : Int × Int
  centerOfLastRoom : Int × Int
  downstairsLocation : Int × Int

/-- The initial state of generate_dungeon given the position the player
entity holds before being placed. -/
def initialGenState (player0 : Int × Int) : GenState :=
  { tiles := fun _ _ => Tile.wall
    rooms := []
    playerPos := player0
    centerOfLastRoom := (0, 0)
    downstairsLocation := (0, 0) }

/-- One iteration of the generation loop (src/procgen.py lines 179-213):
draw a room size and position, reject on intersection with any accepted
room, otherwise carve the interior, place the player (first room) or carve
a corridor from the previous room and record the new center as
center_of_last_room (later rooms), then write the down-stairs tile at
center_of_last_room and record it as downstairs_location, and append the
room. -/
def attemptStep (room_min_size room_max_size map_width map_height : Int)
    (a : Attempt) (s : GenState) : Option GenState :=
  (randint room_min_size room_max_size a.rw).bind fun roomWidth =>
  (randint room_min_size room_max_size a.rh).bind fun roomHeight =>
  (randint 0 (map_width - roomWidth - 1) a.rx).bind fun x =>
  (randint 0 (map_height - roomHeight - 1) a.ry).bind fun y =>
  let newRoom := RectangularRoom.make x y roomWidth roomHeight
  if s.rooms.any (fun other => newRoom.intersects other) then
    some s
  else
    let tilesCarved := carveInner s.tiles newRoom
    let s1 : GenState :=
      match s.rooms.getLast? with
      | none =>
          { s with tiles := tilesCarved, playerPos := newRoom.center }
      | some prevRoom =>
          { s with
            tiles := carveCells tilesCarved
              (tunnelBetween a.coin prevRoom.center newRoom.center)
            centerOfLastRoom := newRoom.center }
    let s2 : GenState :=
      { s1 with
        tiles := setTile s1.tiles s1.centerOfLastRoom Tile.downStairs
        downstairsLocation := s1.centerOfLastRoom }
    some { s2 with rooms := s.rooms ++ [newRoom] }

/-- generate_dungeon (src/procgen.py lines 161-215) over an explicit
stream of random choices: run max_rooms attempts from the initial
all-wall state. -/
def generate_dungeon (max_rooms : Nat)
    (room_min_size room_max_size map_width map_height : Int)
    (player0 : Int × Int) (stream : Nat → Attempt) : Option GenState :=
  (List.range max_rooms).foldlM
    (fun s r => attemptStep room_min_size room_max_size map_width map_height (stream r) s)
    (initialGenState player0)

/-- Adjacency of grid cells: distinct cells within Chebyshev distance 1
(the eight-directional step of roguelike movement; a four-directional
reading is a special case). -/
def adjacentCell (p q : Int × Int) : Prop :=
  p ≠ q ∧ (p.1 - q.1).natAbs ≤ 1 ∧ (p.2 - q.2).natAbs ≤ 1

/-- One movement step on a tile grid: into an adjacent cell whose tile is
walkable. -/
def stepTo (t : Int → Int → Tile) (p q : Int × Int) : Prop :=
  adjacentCell p q ∧ (t q.1 q.2).walkable = true

/-- Reachability through walkable cells: the reflexive transitive closure
of single steps. -/
def Reachable (t : Int → Int → Tile) (s p : Int × Int) : Prop :=
  Relation.ReflTransGen (stepTo t) s p

/-- Render order enum (render_order.py, referenced from
src/components/fighter.py; modelled by its use there: corpses get the
lowest draw priority). -/
inductive RenderOrder where
  | corpse : RenderOrder
  | item : RenderOrder
  | actor : RenderOrder
deriving DecidableEq, Repr

/-- The interaction mode held by Engine.event_handler: the death
transition swaps MainGameEventHandler for GameOverEventHandler
(src/components/fighter.py lines 62-68). -/
inductive Mode where
  | mainGame : Mode
  | gameOver : Mode
deriving DecidableEq, Repr

/-- The state touched by Fighter (src/components/fighter.py): the fighter
numbers, the owning entity fields mutated by die(), whether the entity is
the engine player, and the engine interaction mode. `ai = true` embeds
`entity.ai is not None`. -/
structure ActorState where
  max_hp : Int
  hp : Int
  defense : Int
  power : Int
  ai : Bool
  name : String
  char : String
  color : Int × Int × Int
  blocks_movement : Bool
  render_order : RenderOrder
  isPlayer : Bool
  mode : Mode
deriving DecidableEq, Repr

/-- Fighter.die (src/components/fighter.py lines 55-79): switch the engine
to the game-over handler when the dying entity is the player, then
unconditionally convert the entity to a corpse: char "%", red color, no
longer blocking, AI cleared, renamed, corpse render order. -/
def ActorState.die (s : ActorState) : ActorState :=
  { s with
    mode := if s.isPlayer then Mode.gameOver else s.mode
    char := "%"
    color := (191, 0, 0)
    blocks_movement := false
    ai := false
    name := "Remains of " ++ s.name
    render_order := RenderOrder.corpse }

/-- The Fighter.hp setter (src/components/fighter.py lines 45-53): store
the value clamped to [0, max_hp]; if the stored hp is 0 and the entity has
an AI, call die(). -/
def ActorState.setHp (s : ActorState) (value : Int) : ActorState :=
  let s1 := { s with hp := max 0 (min value s.max_hp) }
  if s1.hp = 0 ∧ s1.ai then s1.die else s1

/-- Modelled from the spec: the melee damage formula.  The attack action
that computes it is not under src/ (only src/components/fighter.py is);
spec section 4.4 gives `damage dealt = max(0, power - target.defense)`. -/
def meleeDamage (power defense : Int) : Int :=
  max 0 (power - defense)

/-- Modelled from the spec: applying an attack writes the damage to the
target hp "through the clamped setter described in section 3" (spec
section 4.4), i.e. target.fighter.hp = target.fighter.hp - damage. -/
def meleeAttack (attacker target : ActorState) : ActorState :=
  target.setHp (target.hp - meleeDamage attacker.power target.defense)

/-- The grid data movement validation reads: dimensions and the per-cell
walkable flags (`game_map.tiles["walkable"]`). -/
structure MapGrid where
  width : Int
  height : Int
  walkable : Int → Int → Bool

/-- Modelled from the spec: GameMap.in_bounds, called by
MovementAction.perform but not under src/; spec section 3 gives the grid
index ranges `0 <= x < width, 0 <= y < height`. -/
def MapGrid.in_bounds (g : MapGrid) (x y : Int) : Bool :=
  decide (0 ≤ x) && decide (x < g.width) && decide (0 ≤ y) && decide (y < g.height)

/-- MovementAction.perform (src/actions.py lines 27-36): compute the
destination; return unchanged if it is out of bounds or its tile is not
walkable; otherwise move the entity by the delta (Entity.move is not under
src/; modelled from the spec: "translate the actor position by the
delta"). -/
def movementPerform (g : MapGrid) (pos : Int × Int) (dx dy : Int) : Int × Int :=
  let dest_x := pos.1 + dx
  let dest_y := pos.2 + dy
  if ¬ (g.in_bounds dest_x dest_y = true) then pos
  else if ¬ (g.walkable dest_x dest_y = true) then pos
  else (pos.1 + dx, pos.2 + dy)

/-- The visibility state of a game map: the visible and explored masks
(src/engine.py, game_map fields). -/
structure FovState where
  visible : Int × Int → Bool
  explored : Int × Int → Bool

/-- Engine.update_fov (src/engine.py lines 46-57): overwrite the visible
mask with the freshly computed field of view (`self.game_map.visible[:] =
compute_fov(...)`; compute_fov is an external collaborator, so its result
is the parameter `newVisible`), then `self.game_map.explored |=
self.game_map.visible`. -/
def update_fov (s : FovState) (newVisible : Int × Int → Bool) : FovState :=
  { visible := newVisible
    explored := fun p => s.explored p || newVisible p }

/-- Engine.handle_enemy_turns (src/engine.py lines 37-44): iterate over
`set(self.game_map.actors) - {self.player}` and call ai.perform() for each
entity that has an AI.  Entities are identified by id; the tracked actor
collection may hold duplicates, the set conversion deduplicates.  The
result lists the entities whose AI acts, one element per perform() call. -/
def handle_enemy_turns (actors : List Nat) (player : Nat) (hasAI : Nat → Bool) : List Nat :=
  ((actors.dedup).filter (fun e => e ≠ player)).filter (fun e => hasAI e)

/-- Console drawing calls issued by render_bar: the two draw_rect calls
and the console.print of the label. -/
inductive DrawCmd where
  | drawRect (x y width height : Int) (bg : Int × Int × Int) : DrawCmd
  | printText (x y : Int) (text : String) (fg : Int × Int × Int) : DrawCmd
deriving DecidableEq, Repr

/-- render_bar (src/render_functions.py lines 11-104) with the default
optional arguments of interest (dynamic_colors=True, no explicit color
overrides): raise ValueError when maximum_value <= 0, else clamp
current_value into [0, maximum_value], compute the filled width as
int(current/maximum * total_width) (exact rational floor; current is
nonnegative after the clamp), pick the dynamic fill color by the 25% and
50% thresholds, and emit the draw calls: background rect, filled rect when
bar_width > 0, then the printed label.  Errors are Except.error, drawing
output is the ordered command list. -/
def render_bar (current_value maximum_value total_width x y : Int)
    (title : String) : Except String (List DrawCmd) :=
  if maximum_value ≤ 0 then
    Except.error "Maximum value must be greater than 0."
  else
    let current := max 0 (min current_value maximum_value)
    let bar_width := Int.fdiv (current * total_width) maximum_value
    let used_fg : Int × Int × Int :=
      if 4 * current < maximum_value then (191, 0, 0)
      else if 2 * current < maximum_value then (255, 191, 0)
      else (0, 191, 0)
    let background : List DrawCmd := [DrawCmd.drawRect x y total_width 1 (75, 75, 75)]
    let filled : List DrawCmd :=
      if bar_width > 0 then [DrawCmd.drawRect x y bar_width 1 used_fg] else []
    let label := title ++ ": " ++ toString current ++ "/" ++ toString maximum_value
    Except.ok (background ++ filled ++ [DrawCmd.printText (x + 1) y label (255, 255, 255)])

/-- A concrete actor used to instantiate hypotheses of the fighter
theorems. -/
def sampleActor : ActorState :=
  { max_hp := 10
    hp := 10
    defense := 1
    power := 3
    ai := true
    name := "Orc"
    char := "o"
    color := (63, 127, 63)
    blocks_movement := true
    render_order := RenderOrder.actor
    isPlayer := false
    mode := Mode.mainGame }

/-- C3: for every Fighter with a well-formed maximum (max_hp is
nonnegative, as the data model hp in 0..max_hp requires) and every value
written to hp, the stored hp lies in [0, max_hp]; a write below 0 stores
0 and a write above max_hp stores max_hp.  The hp setter is the only
operation under src/ that writes hp (die() does not touch it), so the
invariant holds after every operation that touches hp. -/
theorem C3_hp_always_clamped (s : ActorState) (value : Int) (h : 0 ≤ s.max_hp) :
    0 ≤ (s.setHp value).hp ∧ (s.setHp value).hp ≤ s.max_hp ∧
    (value < 0 → (s.setHp value).hp = 0) ∧
    (value > s.max_hp → (s.setHp value).hp = s.max_hp) := by
  have hmax : (s.setHp value).max_hp = s.max_hp := by
    simp only [ActorState.setHp, ActorState.die]
    split <;> rfl
  simp only [ActorState.setHp, ActorState.die]
  split <;> simp <;> omega

/-- C3 witness: the clamp theorem at a concrete actor and a concrete
write of -5. -/
theorem C3_hp_always_clamped_witness :
    (0 ≤ sampleActor.max_hp) ∧
    (0 ≤ (sampleActor.setHp (-5)).hp ∧ (sampleActor.setHp (-5)).hp ≤ sampleActor.max_hp ∧
      ((-5 : Int) < 0 → (sampleActor.setHp (-5)).hp = 0) ∧
      ((-5 : Int) > sampleActor.max_hp → (sampleActor.setHp (-5)).hp = sampleActor.max_hp)) :=
  ⟨by decide, C3_hp_always_clamped sampleActor (-5) (by decide)⟩

/-- C4: a write that clamps to 0 while the entity has an AI fires the
death transition, which clears the AI reference; any subsequent hp write
(including a second lethal one) leaves name, char, color, blocks_movement,
render order and interaction mode untouched and never re-fires death. -/
theorem C4_death_fires_once (s : ActorState) (v : Int) (h1 : s.ai = true)
    (h2 : max 0 (min v s.max_hp) = 0) :
    (s.setHp v).ai = false ∧
    (s.setHp v).name = "Remains of " ++ s.name ∧
    (s.setHp v).render_order = RenderOrder.corpse ∧
    ∀ w : Int,
      ((s.setHp v).setHp w).ai = false ∧
      ((s.setHp v).setHp w).name = (s.setHp v).name ∧
      ((s.setHp v).setHp w).char = (s.setHp v).char ∧
      ((s.setHp v).setHp w).color = (s.setHp v).color ∧
      ((s.setHp v).setHp w).blocks_movement = (s.setHp v).blocks_movement ∧
      ((s.setHp v).setHp w).render_order = (s.setHp v).render_order ∧
      ((s.setHp v).setHp w).mode = (s.setHp v).mode := by
  simp only [ActorState.setHp, ActorState.die, h1, h2, and_true, if_pos rfl]
  simp

/-- C4 witness: a lethal write of -3 to a live concrete actor, then the
idempotence facts for a second write of -3. -/
theorem C4_death_fires_once_witness :
    sampleActor.ai = true ∧ max 0 (min (-3) sampleActor.max_hp) = 0 ∧
    ((sampleActor.setHp (-3)).ai = false ∧
      (sampleActor.setHp (-3)).name = "Remains of " ++ sampleActor.name ∧
      (sampleActor.setHp (-3)).render_order = RenderOrder.corpse ∧
      ∀ w : Int,
        ((sampleActor.setHp (-3)).setHp w).ai = false ∧
        ((sampleActor.setHp (-3)).setHp w).name = (sampleActor.setHp (-3)).name ∧
        ((sampleActor.setHp (-3)).setHp w).char = (sampleActor.setHp (-3)).char ∧
        ((sampleActor.setHp (-3)).setHp w).color = (sampleActor.setHp (-3)).color ∧
        ((sampleActor.setHp (-3)).setHp w).blocks_movement = (sampleActor.setHp (-3)).blocks_movement ∧
        ((sampleActor.setHp (-3)).setHp w).render_order = (sampleActor.setHp (-3)).render_order ∧
        ((sampleActor.setHp (-3)).setHp w).mode = (sampleActor.setHp (-3)).mode) :=
  ⟨by decide, by decide, C4_death_fires_once sampleActor (-3) (by decide) (by decide)⟩

/-- A concrete 10 by 10 all-walkable grid for the movement witness. -/
def sampleGrid : MapGrid :=
  { width := 10, height := 10, walkable := fun _ _ => true }

/-- C5: MovementAction.perform leaves the position unchanged (and, being a
total function, raises nothing) when the destination is out of bounds or
not walkable, and otherwise translates the position by exactly the
delta. -/
theorem C5_movement_validation (g : MapGrid) (pos : Int × Int) (dx dy : Int) :
    (¬ (g.in_bounds (pos.1 + dx) (pos.2 + dy) = true ∧
        g.walkable (pos.1 + dx) (pos.2 + dy) = true) →
      movementPerform g pos dx dy = pos) ∧
    (g.in_bounds (pos.1 + dx) (pos.2 + dy) = true →
      g.walkable (pos.1 + dx) (pos.2 + dy) = true →
      movementPerform g pos dx dy = (pos.1 + dx, pos.2 + dy)) := by
  simp only [movementPerform]
  constructor
  · intro h
    split
    · rfl
    · split
      · rfl
      · rename_i hb hw
        exact absurd ⟨by simpa using hb, by simpa using hw⟩ h
  · intro hb hw
    rw [if_neg (by simp [hb]), if_neg (by simp [hw])]

/-- C5 witness: an actor at (0, 0) stepping by (-1, 0) on a 10 by 10
all-walkable grid stays at (0, 0): the destination is out of bounds. -/
theorem C5_movement_validation_witness :
    movementPerform sampleGrid (0, 0) (-1) 0 = (0, 0) :=
  (C5_movement_validation sampleGrid (0, 0) (-1) 0).1 (by decide)

/-- C7: update_fov replaces the visible mask entirely with the newly
computed field of view and ORs it into explored, so explored never loses a
cell across an update and always covers the current visible mask. -/
theorem C7_explored_monotone (s : FovState) (newVisible : Int × Int → Bool) :
    (update_fov s newVisible).visible = newVisible ∧
    ∀ p : Int × Int,
      (s.explored p = true → (update_fov s newVisible).explored p = true) ∧
      ((update_fov s newVisible).visible p = true →
        (update_fov s newVisible).explored p = true) := by
  refine ⟨rfl, fun p => ⟨fun h => ?_, fun h => ?_⟩⟩
  · simp only [update_fov, h, Bool.true_or]
  · simp only [update_fov] at h ⊢
    simp [h]

/-- A concrete visibility state for the C7 witness. -/
def sampleFov : FovState :=
  { visible := fun p => decide (p = (1, 1))
    explored := fun p => decide (p = (0, 0)) }

/-- C7 witness: the monotonicity facts at a concrete state, a concrete new
mask and concrete cells. -/
theorem C7_explored_monotone_witness :
    (update_fov sampleFov (fun p => decide (p = (2, 2)))).visible =
      (fun p => decide (p = (2, 2))) ∧
    (sampleFov.explored (0, 0) = true ∧
      (update_fov sampleFov (fun p => decide (p = (2, 2)))).explored (0, 0) = true) ∧
    ((update_fov sampleFov (fun p => decide (p = (2, 2)))).visible (2, 2) = true ∧
      (update_fov sampleFov (fun p => decide (p = (2, 2)))).explored (2, 2) = true) :=
  ⟨(C7_explored_monotone sampleFov _).1,
    ⟨by decide, ((C7_explored_monotone sampleFov _).2 (0, 0)).1 (by decide)⟩,
    ⟨by decide, ((C7_explored_monotone sampleFov _).2 (2, 2)).2 (by decide)⟩⟩

/-- C8: in one enemy turn batch, every non-player entity with an AI acts
exactly once, the player never acts, and no entity acts more than once
even when it appears several times in the tracked actor collection. -/
theorem C8_enemy_batch_once (actors : List Nat) (player : Nat)
    (hasAI : Nat → Bool) (e : Nat) :
    (e ∈ actors → e ≠ player → hasAI e = true →
      (handle_enemy_turns actors player hasAI).count e = 1) ∧
    (handle_enemy_turns actors player hasAI).count player = 0 ∧
    (handle_enemy_turns actors player hasAI).count e ≤ 1 := by
  refine ⟨fun hmem hne hai => ?_, ?_, ?_⟩
  · simp only [handle_enemy_turns]
    rw [List.count_filter (by exact hai), List.count_filter (by simp [hne])]
    simp [List.count_dedup, hmem]
  · apply List.count_eq_zero.mpr
    intro hmem
    simp only [handle_enemy_turns, List.mem_filter] at hmem
    simp at hmem
  · calc (handle_enemy_turns actors player hasAI).count e
        ≤ actors.dedup.count e := by
          apply List.Sublist.count_le
          exact (List.filter_sublist _).trans (List.filter_sublist _)
      _ ≤ 1 := by rw [List.count_dedup]; split <;> simp

/-- C8 witness: the batch for actors [1, 2, 2, 0] with player 0 where
everything has an AI: entity 2, listed twice, acts exactly once; the
player acts zero times. -/
theorem C8_enemy_batch_once_witness :
    (2 ∈ [1, 2, 2, 0] ∧ 2 ≠ 0 ∧ (fun _ => true) 2 = true) ∧
    (handle_enemy_turns [1, 2, 2, 0] 0 (fun _ => true)).count 2 = 1 ∧
    (handle_enemy_turns [1, 2, 2, 0] 0 (fun _ => true)).count 0 = 0 ∧
    (handle_enemy_turns [1, 2, 2, 0] 0 (fun _ => true)).count 2 ≤ 1 :=
  ⟨⟨by decide, by decide, rfl⟩,
    (C8_enemy_batch_once [1, 2, 2, 0] 0 (fun _ => true) 2).1 (by decide) (by decide) rfl,
    (C8_enemy_batch_once [1, 2, 2, 0] 0 (fun _ => true) 2).2.1,
    (C8_enemy_batch_once [1, 2, 2, 0] 0 (fun _ => true) 2).2.2⟩

/-- C9: the damage dealt by combat resolution is max(0, power - defense),
never negative, with the concrete values 5 vs 2 dealing 3 and 2 vs 5
dealing 0; the attack applies it to the target hp through the clamped
setter (so the resulting hp is the old hp minus damage, clamped to
[0, max_hp], and max_hp is untouched). -/
theorem C9_damage_formula (attacker target : ActorState) :
    0 ≤ meleeDamage attacker.power target.defense ∧
    meleeDamage 5 2 = 3 ∧
    meleeDamage 2 5 = 0 ∧
    (meleeAttack attacker target).hp =
      max 0 (min (target.hp - meleeDamage attacker.power target.defense) target.max_hp) ∧
    (meleeAttack attacker target).max_hp = target.max_hp := by
  refine ⟨le_max_left 0 _, by decide, by decide, ?_, ?_⟩ <;>
    · simp only [meleeAttack, ActorState.setHp, ActorState.die]
      split <;> rfl

/-- C10: render_bar fails fast with the descriptive ValueError message
whenever maximum_value <= 0, returning the error before any draw command
is produced (never an ok command list). -/
theorem C10_render_bar_fails_fast (current_value maximum_value total_width x y : Int)
    (title : String) (h : maximum_value ≤ 0) :
    render_bar current_value maximum_value total_width x y title =
      Except.error "Maximum value must be greater than 0." ∧
    ∀ cmds : List DrawCmd,
      render_bar current_value maximum_value total_width x y title ≠ Except.ok cmds := by
  constructor
  · simp [render_bar, h]
  · intro cmds
    simp [render_bar, h]

/-- C10 witness: render_bar with maximum_value = 0 (the Engine calls it
with the player max_hp) errors out. -/
theorem C10_render_bar_fails_fast_witness :
    ((0 : Int) ≤ 0) ∧
    (render_bar 1 0 20 1 45 "HP" =
      Except.error "Maximum value must be greater than 0." ∧
    ∀ cmds : List DrawCmd, render_bar 1 0 20 1 45 "HP" ≠ Except.ok cmds) :=
  ⟨by decide, C10_render_bar_fails_fast 1 0 20 1 45 "HP" (by decide)⟩

/-- Characterisation of the intersects test as the four interval
comparisons. -/
theorem intersects_iff (a b : RectangularRoom) :
    a.intersects b = true ↔
      (a.x1 ≤ b.x2 ∧ a.x2 ≥ b.x1 ∧ a.y1 ≤ b.y2 ∧ a.y2 ≥ b.y1) := by
  simp [RectangularRoom.intersects, and_assoc]

/-- The intersects test is symmetric, so a rejected overlap in one
direction rules out the other direction as well. -/
theorem intersects_false_symm {a b : RectangularRoom}
    (h : a.intersects b = false) : b.intersects a = false := by
  by_contra hne
  rw [Bool.not_eq_false, intersects_iff] at hne
  rw [← Bool.not_eq_true, intersects_iff] at h
  obtain ⟨h1, h2, h3, h4⟩ := hne
  exact h ⟨by omega, by omega, by omega, by omega⟩

/-- Non-intersecting bounding boxes leave at least one tile of wall
between the carved interiors: any two interior cells differ by at least 2
on some axis, so no interior cell of one room is adjacent (even
diagonally) to an interior cell of the other. -/
theorem inner_gap {a b : RectangularRoom} (h : a.intersects b = false) :
    ∀ p q : Int × Int, a.innerContains p → b.innerContains q →
      2 ≤ (p.1 - q.1).natAbs ∨ 2 ≤ (p.2 - q.2).natAbs := by
  intro p q hp hq
  rw [← Bool.not_eq_true, intersects_iff] at h
  obtain ⟨hp1, hp2, hp3, hp4⟩ := hp
  obtain ⟨hq1, hq2, hq3, hq4⟩ := hq
  omega

/-- One generation attempt preserves pairwise non-intersection of the
accepted rooms: a room is appended only when the scan against every
previously accepted room found no intersection. -/
theorem attemptStep_pairwise {rmin rmax mw mh : Int} {a : Attempt} {s s' : GenState}
    (hstep : attemptStep rmin rmax mw mh a s = some s')
    (hs : List.Pairwise (fun x y => x.intersects y = false) s.rooms) :
    List.Pairwise (fun x y => x.intersects y = false) s'.rooms := by
  simp only [attemptStep, Option.bind_eq_some'] at hstep
  obtain ⟨roomWidth, hw, roomHeight, hh, x, hx, y, hy, hrest⟩ := hstep
  by_cases hany :
      s.rooms.any (fun other =>
        (RectangularRoom.make x y roomWidth roomHeight).intersects other) = true
  · rw [if_pos hany] at hrest
    rw [Option.some_inj] at hrest
    exact hrest ▸ hs
  · rw [if_neg hany] at hrest
    rw [Option.some_inj] at hrest
    have hnone : ∀ other ∈ s.rooms,
        (RectangularRoom.make x y roomWidth roomHeight).intersects other = false := by
      intro other hmem
      have := (List.any_eq_true).not.mp hany
      push_neg at this
      simpa using this other hmem
    have : List.Pairwise (fun x y => x.intersects y = false)
        (s.rooms ++ [RectangularRoom.make x y roomWidth roomHeight]) := by
      rw [List.pairwise_append]
      refine ⟨hs, List.pairwise_singleton _ _, ?_⟩
      intro r hr r' hr'
      rw [List.mem_singleton] at hr'
      subst hr'
      exact intersects_false_symm (hnone r hr)
    rw [← hrest]
    exact this

/-- The generation loop preserves pairwise non-intersection from any
starting state. -/
theorem genLoop_pairwise (rmin rmax mw mh : Int) (stream : Nat → Attempt)
    (l : List Nat) (s : GenState)
    (hs : List.Pairwise (fun x y => x.intersects y = false) s.rooms) :
    ∀ st, l.foldlM (fun acc r => attemptStep rmin rmax mw mh (stream r) acc) s = some st →
      List.Pairwise (fun x y => x.intersects y = false) st.rooms := by
  induction l generalizing s with
  | nil =>
    intro st hrun
    simp only [List.foldlM_nil, Option.pure_def, Option.some_inj] at hrun
    exact hrun ▸ hs
  | cons a l ih =>
    intro st hrun
    rw [List.foldlM_cons] at hrun
    generalize hstep : attemptStep rmin rmax mw mh (stream a) s = os at hrun
    cases os with
    | none => simp at hrun
    | some s' =>
      have hrun' :
          l.foldlM (fun acc r => attemptStep rmin rmax mw mh (stream r) acc) s' =
            some st := by simpa using hrun
      exact ih s' (attemptStep_pairwise hstep hs) st hrun'

/-- C6: any two distinct rooms accepted by generate_dungeon have
non-overlapping bounding boxes (inclusive of the 1-cell wall border, in
both directions of the intersects test), and their carved interiors are
separated by at least one tile of wall: interior cells of distinct rooms
are never equal or adjacent, differing by at least 2 on some axis. -/
theorem C6_rooms_never_overlap (max_rooms : Nat)
    (room_min_size room_max_size map_width map_height : Int)
    (player0 : Int × Int) (stream : Nat → Attempt) (st : GenState)
    (hgen : generate_dungeon max_rooms room_min_size room_max_size
      map_width map_height player0 stream = some st) :
    List.Pairwise (fun a b =>
      a.intersects b = false ∧ b.intersects a = false ∧
      ∀ p q : Int × Int, a.innerContains p → b.innerContains q →
        2 ≤ (p.1 - q.1).natAbs ∨ 2 ≤ (p.2 - q.2).natAbs) st.rooms := by
  have hbase :
      List.Pairwise (fun x y => x.intersects y = false) (initialGenState player0).rooms :=
    List.Pairwise.nil
  have hpair := genLoop_pairwise room_min_size room_max_size map_width map_height
    stream (List.range max_rooms) (initialGenState player0) hbase st hgen
  exact hpair.imp (fun h => ⟨h, intersects_false_symm h, inner_gap h⟩)

/-- A concrete stream whose first two attempts accept the rooms at (0,0)
and (6,6) of size 3 on a 12 by 12 map. -/
def c6stream : Nat → Attempt :=
  fun r => if r = 0 then ⟨0, 0, 0, 0, true⟩ else ⟨0, 0, 6, 6, true⟩

/-- The generated state of the two-room witness run. -/
def c6state : GenState :=
  (generate_dungeon 2 3 3 12 12 (0, 0) c6stream).getD (initialGenState (0, 0))

/-- C6 witness: the non-overlap theorem at the concrete two-room run. -/
theorem C6_rooms_never_overlap_witness :
    List.Pairwise (fun a b =>
      a.intersects b = false ∧ b.intersects a = false ∧
      ∀ p q : Int × Int, a.innerContains p → b.innerContains q →
        2 ≤ (p.1 - q.1).natAbs ∨ 2 ≤ (p.2 - q.2).natAbs) c6state.rooms :=
  C6_rooms_never_overlap 2 3 3 12 12 (0, 0) c6stream c6state rfl

/-- A stream whose single attempt accepts a 5 by 5 room at (10, 10) on a
20 by 20 map. -/
def c1stream : Nat → Attempt := fun _ => ⟨0, 0, 10, 10, true⟩

/-- The generated state of the max_rooms = 1 run for C1. -/
def c1state : GenState :=
  (generate_dungeon 1 5 5 20 20 (0, 0) c1stream).getD (initialGenState (0, 0))

/-- C1: the code violates the reachability contract.  With max_rooms = 1
(an accepted parameter set: the spec admits any max_rooms > 0) the single
accepted room is carved and the player is placed at its center (12, 12),
but center_of_last_room keeps its initial value (0, 0), so the down-stairs
tile and downstairs_location land on the map corner, which no walkable
path from the player start can reach. -/
theorem C1_downstairs_unreachable :
    generate_dungeon 1 5 5 20 20 (0, 0) c1stream = some c1state ∧
    c1state.rooms = [RectangularRoom.make 10 10 5 5] ∧
    c1state.playerPos = (12, 12) ∧
    c1state.downstairsLocation = (0, 0) ∧
    ¬ Reachable c1state.tiles c1state.playerPos c1state.downstairsLocation := by
  have htiles : c1state.tiles =
      setTile (carveInner (fun _ _ => Tile.wall) (RectangularRoom.make 10 10 5 5))
        (0, 0) Tile.downStairs := rfl
  have hwall : ∀ i j : Int, i.natAbs ≤ 1 → j.natAbs ≤ 1 → ¬(i = 0 ∧ j = 0) →
      (c1state.tiles i j).walkable = false := by
    intro i j hi hj hne
    have hi3 : i = -1 ∨ i = 0 ∨ i = 1 := by omega
    have hj3 : j = -1 ∨ j = 0 ∨ j = 1 := by omega
    rcases hi3 with rfl | rfl | rfl <;> rcases hj3 with rfl | rfl | rfl <;>
      first
        | decide
        | exact absurd (by decide) hne
  refine ⟨rfl, by decide, by decide, by decide, ?_⟩
  have hplayer : c1state.playerPos = ((12, 12) : Int × Int) := by decide
  have hdown : c1state.downstairsLocation = ((0, 0) : Int × Int) := by decide
  rw [hplayer, hdown]
  intro hreach
  rcases Relation.ReflTransGen.cases_tail hreach with heq | ⟨q, hq, hstepq⟩
  · exact absurd heq (by decide)
  · obtain ⟨⟨hne, hdx, hdy⟩, _⟩ := hstepq
    have hdx' : (q.1 - 0).natAbs ≤ 1 := hdx
    have hdy' : (q.2 - 0).natAbs ≤ 1 := hdy
    rcases Relation.ReflTransGen.cases_tail hq with heq2 | ⟨q2, hq2, hstepq2⟩
    · subst heq2
      exact absurd hdx' (by decide)
    · obtain ⟨_, hwalkq⟩ := hstepq2
      have hfalse : (c1state.tiles q.1 q.2).walkable = false := by
        apply hwall q.1 q.2 (by omega) (by omega)
        intro hzero
        exact hne (Prod.ext hzero.1 hzero.2)
      rw [hwalkq] at hfalse
      exact Bool.noConfusion hfalse

/-- A stream whose single attempt accepts a 5 by 5 room at (7, 9) on a
30 by 30 map. -/
def c2stream : Nat → Attempt := fun _ => ⟨0, 0, 7, 9, true⟩

/-- The generated state of the max_rooms = 1 run for C2. -/
def c2state : GenState :=
  (generate_dungeon 1 5 5 30 30 (0, 0) c2stream).getD (initialGenState (0, 0))

/-- C2: with max_rooms = 1 and room_min_size = room_max_size = 5 the run
accepts exactly one room and carves no corridor (the floor tiles are
exactly the room interior), and the player is placed at the room center
(9, 11); but the down-stairs tile and downstairs_location land at (0, 0),
the never-updated initial center_of_last_room, not at that center: the
center tile stays plain floor. -/
theorem C2_single_room_stairs_misplaced :
    generate_dungeon 1 5 5 30 30 (0, 0) c2stream = some c2state ∧
    c2state.rooms = [RectangularRoom.make 7 9 5 5] ∧
    c2state.playerPos = (RectangularRoom.make 7 9 5 5).center ∧
    c2state.playerPos = (9, 11) ∧
    c2state.downstairsLocation = (0, 0) ∧
    c2state.downstairsLocation ≠ (RectangularRoom.make 7 9 5 5).center ∧
    c2state.tiles 0 0 = Tile.downStairs ∧
    c2state.tiles 9 11 = Tile.floor ∧
    (∀ i j : Int, c2state.tiles i j = Tile.floor ↔
      8 ≤ i ∧ i < 12 ∧ 10 ≤ j ∧ j < 14) := by
  have htiles : c2state.tiles =
      setTile (carveInner (fun _ _ => Tile.wall) (RectangularRoom.make 7 9 5 5))
        (0, 0) Tile.downStairs := rfl
  refine ⟨rfl, by decide, by decide, by decide, by decide, by decide, by decide, by decide, ?_⟩
  intro i j
  rw [htiles]
  simp only [setTile, carveInner, RectangularRoom.innerContains, RectangularRoom.make]
  constructor
  · intro hfloor
    split_ifs at hfloor with h1 h2
    have h2a : 7 + 1 ≤ i ∧ i < 7 + 5 ∧ 9 + 1 ≤ j ∧ j < 9 + 5 := h2
    omega
  · intro hb
    have h1 : ¬(i = ((0 : Int), (0 : Int)).1 ∧ j = ((0 : Int), (0 : Int)).2) := by
      intro hc
      have hc1 : i = 0 := hc.1
      omega
    rw [if_neg h1, if_pos]
    exact ⟨by omega, by omega, by omega, by omega⟩
